import Mathlib

/-
Verification of the go-m2rest Magento 2 REST client library.

This file gives a shallow embedding of the library's HTTP
request/response/retry/error-normalization layer and of the entity
accessors the specification talks about, and proves the specified
properties about the embedded definitions.

Modelling conventions:
  * Go strings are modelled as `List Char` where byte-level operations
    matter (quote trimming); the guarded bytes are ASCII so byte-level and
    char-level behaviour agree.  Route strings are Lean `String`s.
  * Go errors are modelled by the inductive `GoError`; `fmt.Errorf` with a
    trailing `%w` verb becomes the `wrapf` constructor and
    `errors.Is`-style unwrapping is the function `errorsIs`.
  * The remote Magento server and the network are modelled as oracles
    (functions from attempt index or route to a result); the embedding
    records which routes are fetched so that statements such as
    "issues a follow-up GET" are expressible.
  * The resty v2 retry machinery configured by buildBasicHTTPClient is
    modelled by `backoffGo` below, following resty's Backoff loop: the
    operation runs once, the request context is consulted after each
    attempt, the user retry condition decides whether to retry, and at
    most RetryAttempts retries follow the initial attempt.
  * `reflect.TypeOf` applied to a nil interface value yields a nil
    `reflect.Type`, and calling `Kind()` on it panics; `reflectTypeOfKind`
    models this with the `Outcome.panicked` constructor.
-/

namespace M2Rest

/-- Kinds of Go runtime values, as classified by reflect.Kind; only the
pointer/non-pointer distinction matters to the embedded code. -/
inductive GoKind where
  | ptr
  | str
  | intKind
  | structKind
  | sliceKind
  | mapKind
  deriving DecidableEq, Repr

/-- A Go `any` (interface) value as seen by the decode-target guard: either
the nil interface or a value of some runtime kind. -/
inductive GoValue where
  | nilInterface
  | val (kind : GoKind)
  deriving DecidableEq, Repr

/-- A completed HTTP response: status code plus raw body bytes. -/
structure Response where
  statusCode : Nat
  body : List Char
  deriving DecidableEq, Repr

/-- The `map[string]any{"statusCode": ..., "response": ...}` detail record
that `mayReturnErrorForHTTPResponse` attaches to bad-request errors. -/
structure RespDetails where
  statusCode : Nat
  response : List Char
  deriving DecidableEq, Repr

/-- The closed error taxonomy of the library.  `notFound`, `badRequest` and
`noPointer` are the sentinel values ErrNotFound, ErrBadRequest and
ErrNoPointer; `itemNotFound` is the cart-specific ItemNotFoundError struct;
`ctxCanceled`/`ctxDeadlineExceeded` are the context package's errors;
`transport` stands for any other network-level error; `wrapf` is
`fmt.Errorf("...: %w", err)` and `wrapDetails` is the detailed wrap
produced by `wrapError` with response details. -/
inductive GoError where
  | notFound
  | badRequest
  | noPointer
  | httpStatus (code : Nat)
  | itemNotFound (itemID : Int)
  | ctxCanceled
  | ctxDeadlineExceeded
  | transport (msg : String)
  | wrapf (msg : String) (inner : GoError)
  | wrapDetails (triedTo : String) (details : List RespDetails) (inner : GoError)
  deriving DecidableEq, Repr

/-- `errors.Is`: the target is compared by identity against the error and
every error reachable by unwrapping it. -/
def errorsIs (e target : GoError) : Bool :=
  (e == target) ||
    (match e with
     | .wrapf _ inner => errorsIs inner target
     | .wrapDetails _ _ inner => errorsIs inner target
     | _ => false)

/-- resty v2 `Response.IsError`: status code strictly above 399. -/
def Response.isError (r : Response) : Bool :=
  r.statusCode > 399

/-- internal.go `wrapError`: wraps an error with the attempted operation,
and with the response details when any are supplied (the variadic
`response ...map[string]any` argument is the list). -/
def wrapError (err : GoError) (triedTo : String) (response : List RespDetails) : GoError :=
  if response.length = 0 then
    .wrapf ("error while trying to " ++ triedTo) err
  else
    .wrapDetails triedTo response err

/-- internal.go `mayReturnErrorForHTTPResponse`: translate a completed HTTP
response into nil (success) or a typed error. -/
def mayReturnErrorForHTTPResponse (resp : Response) (triedTo : String) : Option GoError :=
  if resp.isError then
    if resp.statusCode = 404 then
      some GoError.notFound
    else if resp.statusCode ≥ 400 then
      some (wrapError GoError.badRequest triedTo [⟨resp.statusCode, resp.body⟩])
    else
      some (wrapError (GoError.httpStatus resp.statusCode) triedTo [⟨resp.statusCode, resp.body⟩])
  else
    none

/-- internal.go `mayTrimSurroundingQuotes`: drop a matching pair of
surrounding double quotes, otherwise return the string unchanged. -/
def mayTrimSurroundingQuotes (s : List Char) : List Char :=
  let minQuotes := 2
  if minQuotes ≤ s.length then
    if s.head? = some '"' ∧ s.getLast? = some '"' then
      (s.drop 1).take (s.length - 2)
    else
      s
  else
    s

/-- strings.TrimPrefix: remove the leading marker when present. -/
def trimPrefixGo (s pre : List Char) : List Char :=
  if pre.isPrefixOf s then s.drop pre.length else s

/-- api_client.go: retry budget handed to resty SetRetryCount. -/
def RetryAttempts : Nat := 3

/-- api_client.go: base retry wait, in seconds. -/
def RetryWaitSeconds : Nat := 5

/-- api_client.go: maximum retry wait, in seconds. -/
def RetryMaxWaitSeconds : Nat := 20

/-- What one execution of the underlying HTTP round trip yields: resty
always hands back a response object (with zero status when the transport
failed) together with an optional transport error. -/
structure AttemptResult where
  resp : Option Response
  err : Option GoError
  deriving DecidableEq, Repr

/-- The retry condition installed by buildBasicHTTPClient: never retry when
the response object is missing or the error is a context error, otherwise
retry exactly when the status is 503 or 500. -/
def retryConditionGo (r : Option Response) (err : Option GoError) : Bool :=
  match r with
  | some resp =>
    if (match err with
        | some e => e == GoError.ctxCanceled || e == GoError.ctxDeadlineExceeded
        | none => false) then
      false
    else
      resp.statusCode == 503 || resp.statusCode == 500
  | none => false

/-- resty v2 Backoff loop.  `ctxErrAt n` is the request context's `Err()`
observed after `n` operations have run; `op i` is the result of the
i-th execution of the round trip (0-based); `fuel` is the number of
retries still allowed.  Returns the final attempt's result and the total
number of operations executed.  The context is consulted after every
attempt, so no retry follows an observed cancellation; a cancellation that
fires during the inter-attempt sleep is observed at the next boundary. -/
def backoffGo (ctxErrAt : Nat → Option GoError)
    (cond : Option Response → Option GoError → Bool)
    (op : Nat → AttemptResult) : Nat → Nat → AttemptResult × Nat
  | i, 0 => (op i, i + 1)
  | i, fuel + 1 =>
    let r := op i
    if (ctxErrAt (i + 1)).isSome then (r, i + 1)
    else if cond r.resp r.err then backoffGo ctxErrAt cond op (i + 1) fuel
    else (r, i + 1)

/-- One resty Execute call as configured by buildBasicHTTPClient: the
Backoff loop started at attempt 0 with RetryAttempts retries and the
500/503 retry condition. -/
def restyExecute (ctxErrAt : Nat → Option GoError) (op : Nat → AttemptResult) :
    AttemptResult × Nat :=
  backoffGo ctxErrAt retryConditionGo op 0 RetryAttempts

/-- resty jitterBackoff / sleepDuration, in nanoseconds (the float
arithmetic in the source is exact on these magnitudes).  `jitter` stands
for the value drawn by rnd.Int63n(ri), so it is below `ri`. -/
def jitterBackoffGo (minW maxW : Nat) (attempt : Nat) (jitter : Nat) : Nat :=
  let base := minW
  let temp := min maxW (base * 2 ^ attempt)
  let ri := temp / 2
  let result := ri + jitter
  if result < minW then minW else result

/-- Nanoseconds in a second (time.Second). -/
def secondNanos : Nat := 1000000000

/-- The wait before the retry following `attempt`, with the wait bounds
configured by buildBasicHTTPClient. -/
def retrySleepNanos (attempt : Nat) (jitter : Nat) : Nat :=
  jitterBackoffGo (RetryWaitSeconds * secondNanos) (RetryMaxWaitSeconds * secondNanos)
    attempt jitter

/-- Result of running a Go function that can also panic. -/
inductive Outcome (α : Type) where
  | ok (a : α)
  | panicked (msg : String)
  deriving DecidableEq, Repr

/-- What a GetRouteAndDecode/PostRouteAndDecode call produced: the returned
error value and how many HTTP round trips were executed (0 means no HTTP
request was issued). -/
structure CallResult where
  err : Option GoError
  attempts : Nat
  deriving DecidableEq, Repr

/-- `reflect.TypeOf(target).Kind()`: on the nil interface, reflect.TypeOf
returns a nil reflect.Type and the Kind call panics with a nil pointer
dereference; otherwise it yields the runtime kind. -/
def reflectTypeOfKind : GoValue → Outcome GoKind
  | .nilInterface => .panicked "invalid memory address or nil pointer dereference"
  | .val k => .ok k

/-- api_client.go `Client.GetRouteAndDecode` (context-aware version): guard
on the decode target's kind, run the GET through the retrying client, map
a transport failure to the context error when the context is done, and
normalize the final response. -/
def GetRouteAndDecode (ctxErrAt : Nat → Option GoError) (op : Nat → AttemptResult)
    (route : String) (target : GoValue) (tryTo : String) : Outcome CallResult :=
  match reflectTypeOfKind target with
  | .panicked m => .panicked m
  | .ok k =>
    if k ≠ GoKind.ptr then
      .ok ⟨some (.wrapf "%w" .noPointer), 0⟩
    else
      let exec := restyExecute ctxErrAt op
      match exec.1.err with
      | some e =>
        match ctxErrAt exec.2 with
        | some ce => .ok ⟨some ce, exec.2⟩
        | none => .ok ⟨some e, exec.2⟩
      | none =>
        match exec.1.resp with
        | some resp => .ok ⟨mayReturnErrorForHTTPResponse resp tryTo, exec.2⟩
        | none => .ok ⟨none, exec.2⟩

/-- api_client.go `Client.PostRouteAndDecode` (context-aware version): same
shape as GetRouteAndDecode with a request body. -/
def PostRouteAndDecode (ctxErrAt : Nat → Option GoError) (op : Nat → AttemptResult)
    (route : String) (body : GoValue) (target : GoValue) (tryTo : String) :
    Outcome CallResult :=
  match reflectTypeOfKind target with
  | .panicked m => .panicked m
  | .ok k =>
    if k ≠ GoKind.ptr then
      .ok ⟨some (.wrapf "%w" .noPointer), 0⟩
    else
      let exec := restyExecute ctxErrAt op
      match exec.1.err with
      | some e =>
        match ctxErrAt exec.2 with
        | some ce => .ok ⟨some ce, exec.2⟩
        | none => .ok ⟨some e, exec.2⟩
      | none =>
        match exec.1.resp with
        | some resp => .ok ⟨mayReturnErrorForHTTPResponse resp tryTo, exec.2⟩
        | none => .ok ⟨none, exec.2⟩

/-- Result of one accessor-level fetch: either the typed error returned by
the transport + normalizer stack, or the decoded value. -/
inductive Fetched (α : Type) where
  | err (e : GoError)
  | ok (a : α)
  deriving DecidableEq, Repr

/-- Route constants defined in the source package. -/
def categories : String := "/categories"

def categoriesList : String := "/categories/list"

def categoriesProductsRelative : String := "products"

def Orders : String := "/orders"

def productsAttribute : String := "/products/attributes"

def productsAttributeOptions : String := "options"

/-- Modelled from the spec: the attribute-set route constants are not in
the sources (only their uses are); the spec lists the consumed endpoints
products/attribute-sets (+ groups), from which these values are taken. -/
def productsAttributeSet : String := "/products/attribute-sets"

/-- Modelled from the spec: list endpoint of the attribute-set routes
missing from the sources. -/
def productsAttributeSetList : String := "/products/attribute-sets/sets/list"

/-- Modelled from the spec: groups list endpoint of the attribute-set
routes missing from the sources. -/
def productsAttributeSetGroupsList : String := "/products/attribute-sets/groups/list"

/-- Modelled from the spec: relative attributes path of the attribute-set
routes missing from the sources. -/
def productsAttributeSetAttributesRelative : String := "attributes"

/-- One filter position: group index, filter index inside the group, and
the literal placed at that position (field name, value, or operator). -/
structure Filter where
  filterGroups : Nat
  filters : Nat
  filterFor : String
  deriving DecidableEq, Repr

/-- One field/value/condition_type triple of a search query. -/
structure FilterFields where
  field : Filter
  value : Filter
  conditionType : Filter
  deriving DecidableEq, Repr

/-- One filter group of a flexible search query. -/
structure SearchQueryCriteria where
  fields : List FilterFields
  deriving DecidableEq, Repr

/-- A supplementary plain key/value query parameter. -/
structure Fields where
  key : String
  value : String
  deriving DecidableEq, Repr

/-- Modelled from the spec: one searchCriteria query pair in Magento's
searchCriteria[filter_groups][N][filters][M][attr]=value convention; the
builder itself (BuildFlexibleSearchQuery/BuildSearchQuery) is absent from
the sources, only its call sites and this shape are. -/
def searchCriteriaPair (group fidx : Nat) (attr v : String) : String :=
  "searchCriteria[filter_groups][" ++ toString group ++ "][filters][" ++
    toString fidx ++ "][" ++ attr ++ "]=" ++ v

/-- Modelled from the spec: the three query pairs serialized for one
field/value/condition_type triple, at the group and filter indices the
caller supplied in the Filter records. -/
def filterFieldsPairs (ff : FilterFields) : List String :=
  [searchCriteriaPair ff.field.filterGroups ff.field.filters "field" ff.field.filterFor,
   searchCriteriaPair ff.value.filterGroups ff.value.filters "value" ff.value.filterFor,
   searchCriteriaPair ff.conditionType.filterGroups ff.conditionType.filters
     "condition_type" ff.conditionType.filterFor]

/-- Join query pairs with the & separator. -/
def joinAmp : List String → String
  | [] => ""
  | [s] => s
  | s :: rest => s ++ "&" ++ joinAmp rest

/-- Modelled from the spec: BuildFlexibleSearchQuery serializes the filter
groups into searchCriteria pairs followed by the supplementary key/value
parameters, &-joined. -/
def BuildFlexibleSearchQuery (criteria : List SearchQueryCriteria)
    (additional : List Fields) : String :=
  joinAmp ((criteria.flatMap fun c => c.fields.flatMap filterFieldsPairs) ++
    additional.map fun f => f.key ++ "=" ++ f.value)

/-- Modelled from the spec: BuildSearchQuery builds a single-filter query
at group index 0, filter index 0. -/
def BuildSearchQuery (field v conditionType : String) : String :=
  BuildFlexibleSearchQuery [⟨[⟨⟨0, 0, field⟩, ⟨0, 0, v⟩, ⟨0, 0, conditionType⟩⟩]⟩] []

/-- The decoded category resource (the fields the embedded workflows
touch: the remote identifier and the name). -/
structure Category where
  id : Int
  name : String
  deriving DecidableEq, Repr

/-- A category-to-product assignment record. -/
structure ProductLink where
  sku : String
  categoryID : String
  deriving DecidableEq, Repr

/-- The MCategory wrapper: resolved route plus decoded state. -/
structure MCategory where
  route : String
  category : Category
  products : List ProductLink
  deriving DecidableEq, Repr

/-- The remote behaviour a category workflow can observe: the decoded
result of the list-endpoint search, and the per-route results of detail
and product-link GETs. -/
structure CategoryRemote where
  searchResult : Fetched (List Category)
  detail : String → Fetched Category
  productLinks : String → Fetched (List ProductLink)

/-- category accessor `UpdateCategoryProductsFromRemote`: GET the
products sub-route of the wrapper's route.  Returns the updated wrapper
and the list of routes fetched. -/
def UpdateCategoryProductsFromRemote (remote : CategoryRemote) (mC : MCategory) :
    Fetched MCategory × List String :=
  let productsRoute := mC.route ++ "/" ++ categoriesProductsRelative
  match remote.productLinks productsRoute with
  | .err e => (.err e, [productsRoute])
  | .ok ps => (.ok { mC with products := ps }, [productsRoute])

/-- category accessor `UpdateCategoryFromRemote`: GET the wrapper's route
into the category, then refresh the product links. -/
def UpdateCategoryFromRemote (remote : CategoryRemote) (mC : MCategory) :
    Fetched MCategory × List String :=
  match remote.detail mC.route with
  | .err e => (.err e, [mC.route])
  | .ok c =>
    let mC1 := { mC with category := c }
    let step := UpdateCategoryProductsFromRemote remote mC1
    match step.1 with
    | .err e =>
      (.err (.wrapf "error updating category products from remote after updating category details" e),
        mC.route :: step.2)
    | .ok m => (.ok m, mC.route :: step.2)

/-- `GetCategoryByName` (context-aware version): search the list endpoint
by name, fail with ErrNotFound on zero results, otherwise take the first
match, derive the route from its id and hydrate from that route. -/
def GetCategoryByName (remote : CategoryRemote) (name : String) :
    Fetched MCategory × List String :=
  let searchQuery := BuildSearchQuery "name" name "in"
  let endpoint := categoriesList ++ "?" ++ searchQuery
  match remote.searchResult with
  | .err e => (.err e, [endpoint])
  | .ok cats =>
    match cats with
    | [] => (.err .notFound, [endpoint])
    | c :: _ =>
      let mC : MCategory :=
        { route := categories ++ "/" ++ toString c.id, category := c, products := [] }
      let step := UpdateCategoryFromRemote remote mC
      match step.1 with
      | .err e =>
        (.err (.wrapf "error updating category from remote after getting by name" e),
          endpoint :: step.2)
      | .ok m => (.ok m, endpoint :: step.2)

/-- The decoded attribute-set resource. -/
structure AttributeSet where
  attributeSetID : Int
  attributeSetName : String
  deriving DecidableEq, Repr

/-- An attribute group of an attribute set. -/
structure Group where
  attributeGroupName : String
  attributeSetID : Int
  deriving DecidableEq, Repr

/-- A selectable option of a dropdown attribute (Go type Option; named
OptionRec here to avoid the Lean builtin). -/
structure OptionRec where
  label : String
  value : String
  deriving DecidableEq, Repr

/-- The decoded attribute resource. -/
structure Attribute where
  attributeID : Int
  attributeCode : String
  options : List OptionRec
  deriving DecidableEq, Repr

/-- The MAttributeSet wrapper. -/
structure MAttributeSet where
  route : String
  attributeSet : AttributeSet
  attributeSetGroups : List Group
  attributeSetAttributes : List Attribute
  deriving DecidableEq, Repr

/-- The remote behaviour an attribute-set workflow can observe. -/
structure AttributeSetRemote where
  searchResult : Fetched (List AttributeSet)
  details : String → Fetched AttributeSet
  groups : String → Fetched (List Group)
  attributes : String → Fetched (List Attribute)

/-- attribute-set accessor `updateAttributeSetDetails`: GET the wrapper's
route into the attribute set. -/
def updateAttributeSetDetails (remote : AttributeSetRemote) (mas : MAttributeSet) :
    Fetched MAttributeSet × List String :=
  match remote.details mas.route with
  | .err e => (.err e, [mas.route])
  | .ok a => (.ok { mas with attributeSet := a }, [mas.route])

/-- attribute-set accessor `updateGroups`: search the groups list endpoint
by the set's id. -/
def updateGroups (remote : AttributeSetRemote) (mas : MAttributeSet) :
    Fetched MAttributeSet × List String :=
  let searchQuery := BuildSearchQuery "attribute_set_id" (toString mas.attributeSet.attributeSetID) "in"
  let endpoint := productsAttributeSetGroupsList ++ "?" ++ searchQuery
  match remote.groups endpoint with
  | .err e => (.err e, [endpoint])
  | .ok gs => (.ok { mas with attributeSetGroups := gs }, [endpoint])

/-- attribute-set accessor `updateAttributes`: GET the attributes
sub-route of the wrapper's route. -/
def updateAttributes (remote : AttributeSetRemote) (mas : MAttributeSet) :
    Fetched MAttributeSet × List String :=
  let attributesRoute := mas.route ++ "/" ++ productsAttributeSetAttributesRelative
  match remote.attributes attributesRoute with
  | .err e => (.err e, [attributesRoute])
  | .ok attrs => (.ok { mas with attributeSetAttributes := attrs }, [attributesRoute])

/-- attribute-set accessor `UpdateAttributeSetFromRemote`: details, then
groups, then attributes, wrapping each stage's failure. -/
def UpdateAttributeSetFromRemote (remote : AttributeSetRemote) (mas : MAttributeSet) :
    Fetched MAttributeSet × List String :=
  let s1 := updateAttributeSetDetails remote mas
  match s1.1 with
  | .err e => (.err (.wrapf "error updating attribute set details" e), s1.2)
  | .ok m1 =>
    let s2 := updateGroups remote m1
    match s2.1 with
    | .err e => (.err (.wrapf "error updating attribute set groups" e), s1.2 ++ s2.2)
    | .ok m2 =>
      let s3 := updateAttributes remote m2
      match s3.1 with
      | .err e => (.err (.wrapf "error updating attribute set attributes" e), s1.2 ++ s2.2 ++ s3.2)
      | .ok m3 => (.ok m3, s1.2 ++ s2.2 ++ s3.2)

/-- `GetAttributeSetByName`: search the list endpoint by name, fail with
ErrNotFound on zero results, otherwise take the first match, derive the
route from its id and hydrate from that route. -/
def GetAttributeSetByName (remote : AttributeSetRemote) (name : String) :
    Fetched MAttributeSet × List String :=
  let searchQuery := BuildSearchQuery "attribute_set_name" name "in"
  let endpoint := productsAttributeSetList ++ "?" ++ searchQuery
  match remote.searchResult with
  | .err e => (.err e, [endpoint])
  | .ok sets =>
    match sets with
    | [] => (.err .notFound, [endpoint])
    | a :: _ =>
      let mas : MAttributeSet :=
        { route := productsAttributeSet ++ "/" ++ toString a.attributeSetID,
          attributeSet := a, attributeSetGroups := [], attributeSetAttributes := [] }
      let step := UpdateAttributeSetFromRemote remote mas
      match step.1 with
      | .err e =>
        (.err (.wrapf "error updating attribute set from remote after getting by name" e),
          endpoint :: step.2)
      | .ok m => (.ok m, endpoint :: step.2)

/-- The decoded order resource (the field the embedded workflow touches). -/
structure Order where
  entityID : Int
  deriving DecidableEq, Repr

/-- The MOrder wrapper. -/
structure MOrder where
  route : String
  order : Order
  deriving DecidableEq, Repr

/-- The remote behaviour an order lookup can observe: the decoded
entity_id projections of the list search, and the per-route detail GET. -/
structure OrderRemote where
  searchItems : Fetched (List Int)
  detail : String → Fetched Order

/-- `GetOrderByIncrementID` (context-aware version): search the orders
list endpoint for the increment id at filter-group index 2, fail with
ErrNotFound on zero results, otherwise take the first item's entity_id,
derive the route from it and hydrate via UpdateFromRemote (which GETs the
route just derived). -/
def GetOrderByIncrementID (remote : OrderRemote) (id : String) :
    Fetched MOrder × List String :=
  let searchCriteria : List SearchQueryCriteria :=
    [⟨[⟨⟨2, 0, "increment_id"⟩, ⟨2, 0, id⟩, ⟨2, 0, "eq"⟩⟩]⟩]
  let additionalQuery : Fields := ⟨"fields", "items[entity_id]"⟩
  let searchQueryStr := BuildFlexibleSearchQuery searchCriteria [additionalQuery]
  let endpoint := Orders ++ "?" ++ searchQueryStr
  match remote.searchItems with
  | .err e => (.err e, [endpoint])
  | .ok items =>
    match items with
    | [] => (.err .notFound, [endpoint])
    | eid :: _ =>
      let route := Orders ++ "/" ++ toString eid
      match remote.detail route with
      | .err e =>
        (.err (.wrapf "error updating order from remote after getting by increment ID" e),
          [endpoint, route])
      | .ok o => (.ok ⟨route, o⟩, [endpoint, route])

/-- A cart line item. -/
structure CartItem where
  sku : String
  qty : Int
  quoteID : String
  itemID : Int
  deriving DecidableEq, Repr

/-- The operation description the cart loop logs for one item (the
source's item-dependent Sprintf, abbreviated to the sku). -/
def addItemTriedTo (item : CartItem) : String :=
  "add item " ++ item.sku ++ " to cart"

/-- cart accessor `AddItems` loop: for each item in order, POST it to the
items sub-route (the oracle gives the i-th POST's raw outcome), normalize
the response, turn a normalized NotFound into ItemNotFoundError with the
item's id, return any other normalized error unchanged, wrap transport
errors, and on success append the item to the local cart state. -/
def addItemsLoop (oracle : Nat → Response × Option GoError) (quoteID : String) :
    List CartItem → List CartItem → Nat → Option GoError × List CartItem
  | [], acc, _ => (none, acc)
  | item :: rest, acc, i =>
    let item1 := { item with quoteID := quoteID }
    let r := oracle i
    match mayReturnErrorForHTTPResponse r.1 (addItemTriedTo item1) with
    | some he =>
      if errorsIs he .notFound then (some (.itemNotFound item1.itemID), acc)
      else (some he, acc)
    | none =>
      match r.2 with
      | some e => (some (.wrapf "error adding item to cart" e), acc)
      | none => addItemsLoop oracle quoteID rest (acc ++ [item1]) (i + 1)

/-- cart accessor `AddItems` entry point over the existing local items. -/
def AddItems (oracle : Nat → Response × Option GoError) (quoteID : String)
    (cartItems : List CartItem) (items : List CartItem) : Option GoError × List CartItem :=
  addItemsLoop oracle quoteID items cartItems 0

/-- The MAttribute wrapper. -/
structure MAttribute where
  route : String
  attributeData : Attribute
  deriving DecidableEq, Repr

/-- The remote behaviour the add-option workflow can observe: the raw POST
outcome at the options endpoint and the per-route detail GET. -/
structure AttributeRemote where
  post : String → Response × Option GoError
  detail : String → Fetched Attribute

/-- What an AddOption call produced: the returned option identifier, the
returned error, the wrapper state afterwards, and the routes touched
(the options POST, then the re-fetch GET when reached). -/
structure AddOptionResult where
  value : List Char
  err : Option GoError
  state : MAttribute
  trace : List String
  deriving Repr

/-- attribute accessor `AddOption` (context-aware version): POST the
option to the options sub-route, normalize, strip surrounding quotes and
a leading id marker from the raw body, then re-fetch the attribute from
the wrapper's route before returning the identifier. -/
def AddOption (remote : AttributeRemote) (mas : MAttribute) (option : OptionRec) :
    AddOptionResult :=
  let endpoint := mas.route ++ "/" ++ productsAttributeOptions
  let r := remote.post endpoint
  match r.2 with
  | some e =>
    ⟨[], some (.wrapf "error assigning option to attribute" e), mas, [endpoint]⟩
  | none =>
    match mayReturnErrorForHTTPResponse r.1 "assign option to attribute" with
    | some he => ⟨[], some he, mas, [endpoint]⟩
    | none =>
      let optionValue := trimPrefixGo (mayTrimSurroundingQuotes r.1.body) "id_".data
      match remote.detail mas.route with
      | .err e =>
        ⟨optionValue, some (.wrapf "error updating attribute from remote after adding option" e),
          mas, [endpoint, mas.route]⟩
      | .ok a =>
        ⟨optionValue, none, { mas with attributeData := a }, [endpoint, mas.route]⟩

/-! ### Helper lemmas about the response normalizer -/

theorem mayReturn_of_lt400 (resp : Response) (triedTo : String)
    (h : resp.statusCode < 400) :
    mayReturnErrorForHTTPResponse resp triedTo = none := by
  have hb : resp.isError = false := by
    simp only [Response.isError, decide_eq_false_iff_not, not_lt, gt_iff_lt]
    omega
  simp [mayReturnErrorForHTTPResponse, hb]

theorem mayReturn_of_404 (resp : Response) (triedTo : String)
    (h : resp.statusCode = 404) :
    mayReturnErrorForHTTPResponse resp triedTo = some GoError.notFound := by
  have hb : resp.isError = true := by
    simp [Response.isError, h]
  simp [mayReturnErrorForHTTPResponse, hb, h]

theorem mayReturn_badRequest (resp : Response) (triedTo : String)
    (h1 : 400 ≤ resp.statusCode) (h2 : resp.statusCode ≠ 404) :
    mayReturnErrorForHTTPResponse resp triedTo =
      some (GoError.wrapDetails triedTo [⟨resp.statusCode, resp.body⟩] GoError.badRequest) := by
  have hb : resp.isError = true := by
    simp only [Response.isError, gt_iff_lt, decide_eq_true_eq]
    omega
  simp [mayReturnErrorForHTTPResponse, hb, h2, h1, wrapError]

/-! ### C1: response normalization -/

/-- C1: for every completed HTTP response, the Response Normalizer returns
nil below status 400, the unwrapped ErrNotFound sentinel at exactly 404,
and for every other status of 400 and above an error wrapping the
bad-request sentinel together with the status code and raw body (so that
errors.Is recovers the sentinel). -/
theorem spec_c1 (resp : Response) (triedTo : String) :
    (resp.statusCode < 400 → mayReturnErrorForHTTPResponse resp triedTo = none) ∧
    (resp.statusCode = 404 →
      mayReturnErrorForHTTPResponse resp triedTo = some GoError.notFound) ∧
    (400 ≤ resp.statusCode → resp.statusCode ≠ 404 →
      mayReturnErrorForHTTPResponse resp triedTo =
        some (GoError.wrapDetails triedTo [⟨resp.statusCode, resp.body⟩] GoError.badRequest) ∧
      errorsIs (GoError.wrapDetails triedTo [⟨resp.statusCode, resp.body⟩] GoError.badRequest)
        GoError.badRequest = true) := by
  refine ⟨fun h => mayReturn_of_lt400 resp triedTo h,
    fun h => mayReturn_of_404 resp triedTo h,
    fun h1 h2 => ⟨mayReturn_badRequest resp triedTo h1 h2, rfl⟩⟩

/-- C1 witness: the three branches evaluated at status 200, 404 and 500. -/
theorem spec_c1_witness :
    mayReturnErrorForHTTPResponse ⟨200, []⟩ "op" = none ∧
    mayReturnErrorForHTTPResponse ⟨404, []⟩ "op" = some GoError.notFound ∧
    mayReturnErrorForHTTPResponse ⟨500, "oops".data⟩ "op" =
      some (GoError.wrapDetails "op" [⟨500, "oops".data⟩] GoError.badRequest) :=
  ⟨(spec_c1 ⟨200, []⟩ "op").1 (by decide),
   (spec_c1 ⟨404, []⟩ "op").2.1 rfl,
   ((spec_c1 ⟨500, "oops".data⟩ "op").2.2 (by decide) (by decide)).1⟩

/-! ### C4: quote trimming -/

/-- C4: mayTrimSurroundingQuotes removes the first and last characters
exactly when the string has length at least 2 and both are double quotes,
and returns the string unchanged otherwise. -/
theorem spec_c4 (s : List Char) :
    (2 ≤ s.length → s.head? = some '"' → s.getLast? = some '"' →
      mayTrimSurroundingQuotes s = (s.drop 1).dropLast) ∧
    (¬(2 ≤ s.length ∧ s.head? = some '"' ∧ s.getLast? = some '"') →
      mayTrimSurroundingQuotes s = s) := by
  constructor
  · intro hlen hh hl
    have hq : s.head? = some '"' ∧ s.getLast? = some '"' := ⟨hh, hl⟩
    rw [mayTrimSurroundingQuotes, if_pos hlen, if_pos hq,
      List.dropLast_eq_take, List.length_drop]
    congr 1
  · intro hno
    rw [mayTrimSurroundingQuotes]
    by_cases hlen : 2 ≤ s.length
    · rw [if_pos hlen, if_neg]
      intro hq
      exact hno ⟨hlen, hq⟩
    · rw [if_neg hlen]

/-- C4 witness: the quoted body, an unquoted body and a short body. -/
theorem spec_c4_witness :
    mayTrimSurroundingQuotes ('"' :: 'a' :: 'b' :: 'c' :: '1' :: '2' :: '3' :: '"' :: []) =
      (('"' :: 'a' :: 'b' :: 'c' :: '1' :: '2' :: '3' :: '"' :: []).drop 1).dropLast ∧
    mayTrimSurroundingQuotes "abc123".data = "abc123".data ∧
    mayTrimSurroundingQuotes "x".data = "x".data :=
  ⟨(spec_c4 _).1 (by decide) (by decide) (by decide),
   (spec_c4 "abc123".data).2 (by decide),
   (spec_c4 "x".data).2 (by decide)⟩

/-! ### C9 and C10: the decode-target guard -/

/-- C9: for every decode target whose runtime kind is not a pointer, both
GetRouteAndDecode and PostRouteAndDecode return the error wrapping
ErrNoPointer without executing any HTTP attempt, and errors.Is recovers
the sentinel from the returned error. -/
theorem spec_c9 (ctxErrAt : Nat → Option GoError) (op : Nat → AttemptResult)
    (route tryTo : String) (body target : GoValue) (k : GoKind)
    (hk : target = GoValue.val k) (hptr : k ≠ GoKind.ptr) :
    GetRouteAndDecode ctxErrAt op route target tryTo =
      .ok ⟨some (.wrapf "%w" .noPointer), 0⟩ ∧
    PostRouteAndDecode ctxErrAt op route body target tryTo =
      .ok ⟨some (.wrapf "%w" .noPointer), 0⟩ ∧
    errorsIs (.wrapf "%w" .noPointer) .noPointer = true := by
  subst hk
  refine ⟨?_, ?_, rfl⟩
  · rw [GetRouteAndDecode]
    simp [reflectTypeOfKind, hptr]
  · rw [PostRouteAndDecode]
    simp [reflectTypeOfKind, hptr]

/-- C9 witness: a string-kinded (non-pointer) decode target. -/
theorem spec_c9_witness :
    GetRouteAndDecode (fun _ => none) (fun _ => ⟨some ⟨200, []⟩, none⟩) "/orders"
        (GoValue.val GoKind.str) "get order" =
      .ok ⟨some (.wrapf "%w" .noPointer), 0⟩ ∧
    PostRouteAndDecode (fun _ => none) (fun _ => ⟨some ⟨200, []⟩, none⟩) "/orders"
        (GoValue.val GoKind.structKind) (GoValue.val GoKind.str) "post order" =
      .ok ⟨some (.wrapf "%w" .noPointer), 0⟩ := by
  refine ⟨(spec_c9 _ _ _ _ (GoValue.val GoKind.structKind) _ GoKind.str rfl (by decide)).1,
    (spec_c9 _ _ "/orders" "post order" (GoValue.val GoKind.structKind) _ GoKind.str rfl
      (by decide)).2.1⟩

/-- C10: calling GetRouteAndDecode or PostRouteAndDecode with a nil decode
target panics before any error value can be produced, because
reflect.TypeOf of the nil interface yields a nil Type and the Kind call
dereferences it. -/
theorem spec_c10 (ctxErrAt : Nat → Option GoError) (op : Nat → AttemptResult)
    (route tryTo : String) (body : GoValue) :
    GetRouteAndDecode ctxErrAt op route GoValue.nilInterface tryTo =
      .panicked "invalid memory address or nil pointer dereference" ∧
    PostRouteAndDecode ctxErrAt op route body GoValue.nilInterface tryTo =
      .panicked "invalid memory address or nil pointer dereference" :=
  ⟨rfl, rfl⟩

/-! ### Helper lemmas about the retry loop -/

theorem backoffGo_attempts_le (ctxErrAt : Nat → Option GoError)
    (cond : Option Response → Option GoError → Bool) (op : Nat → AttemptResult) :
    ∀ (fuel i : Nat), (backoffGo ctxErrAt cond op i fuel).2 ≤ i + fuel + 1 := by
  intro fuel
  induction fuel with
  | zero => intro i; simp [backoffGo]
  | succ fuel ih =>
    intro i
    rw [backoffGo]
    cases hc : (ctxErrAt (i + 1)).isSome
    · cases hr : cond (op i).resp (op i).err
      · simp [hc, hr]
      · simp only [hc, hr]
        simp only [Bool.false_eq_true, if_false, if_true]
        have := ih (i + 1)
        omega
    · simp [hc]

theorem backoffGo_retried_cond (ctxErrAt : Nat → Option GoError)
    (cond : Option Response → Option GoError → Bool) (op : Nat → AttemptResult) :
    ∀ (fuel i j : Nat), i ≤ j → j + 1 < (backoffGo ctxErrAt cond op i fuel).2 →
      cond (op j).resp (op j).err = true := by
  intro fuel
  induction fuel with
  | zero =>
    intro i j hij hlt
    rw [backoffGo] at hlt
    omega
  | succ fuel ih =>
    intro i j hij hlt
    rw [backoffGo] at hlt
    cases hc : (ctxErrAt (i + 1)).isSome
    · cases hr : cond (op i).resp (op i).err
      · simp [hc, hr] at hlt
        omega
      · rcases Nat.eq_or_lt_of_le hij with heq | hlt2
        · exact heq ▸ hr
        · simp only [hc, hr, Bool.false_eq_true, if_false, if_true] at hlt
          exact ih (i + 1) j hlt2 hlt
    · simp [hc] at hlt
      omega

theorem backoffGo_no_retry (ctxErrAt : Nat → Option GoError)
    (cond : Option Response → Option GoError → Bool) (op : Nat → AttemptResult)
    (fuel i : Nat) (hc : (ctxErrAt (i + 1)).isSome = false)
    (hr : cond (op i).resp (op i).err = false) :
    backoffGo ctxErrAt cond op i fuel = (op i, i + 1) := by
  cases fuel with
  | zero => rfl
  | succ fuel => simp [backoffGo, hc, hr]

theorem backoffGo_ctx_stop (ctxErrAt : Nat → Option GoError)
    (cond : Option Response → Option GoError → Bool) (op : Nat → AttemptResult) :
    ∀ (fuel i k : Nat), i ≤ k → (ctxErrAt (k + 1)).isSome = true →
      (backoffGo ctxErrAt cond op i fuel).2 ≤ k + 1 := by
  intro fuel
  induction fuel with
  | zero =>
    intro i k hik _
    rw [backoffGo]
    omega
  | succ fuel ih =>
    intro i k hik hk
    rw [backoffGo]
    cases hc : (ctxErrAt (i + 1)).isSome
    · cases hr : cond (op i).resp (op i).err
      · simp [hc, hr]
        omega
      · simp only [hc, hr, Bool.false_eq_true, if_false, if_true]
        have hne : i ≠ k := by
          intro h
          rw [h, hk] at hc
          exact Bool.noConfusion hc
        exact ih (i + 1) k (by omega) hk
    · simp [hc]
      omega

theorem restyExecute_cancelled (ctxErrAt : Nat → Option GoError)
    (op : Nat → AttemptResult) (h : (ctxErrAt 1).isSome = true) :
    restyExecute ctxErrAt op = (op 0, 1) := by
  rw [restyExecute, RetryAttempts, backoffGo]
  simp [h]

theorem retryCondition_iff_500_503 (resp : Response) (err : Option GoError) :
    retryConditionGo (some resp) err = true ↔
      ((err ≠ some GoError.ctxCanceled ∧ err ≠ some GoError.ctxDeadlineExceeded) ∧
        (resp.statusCode = 500 ∨ resp.statusCode = 503)) := by
  cases err with
  | none =>
    simp [retryConditionGo]
    tauto
  | some e =>
    by_cases he : e = GoError.ctxCanceled ∨ e = GoError.ctxDeadlineExceeded
    · rcases he with he | he <;> subst he <;> simp [retryConditionGo]
    · push_neg at he
      simp [retryConditionGo, he.1, he.2]
      tauto

/-! ### C2: retry policy -/

/-- C2 counterexample: with every attempt answering 500, the transport
performs 4 attempts in total (the initial call plus RetryAttempts = 3
retries), so the claimed bound of at most 3 attempts in total is false. -/
theorem spec_c2_counterexample :
    (restyExecute (fun _ => none)
        (fun _ => ⟨some ⟨500, "server error".data⟩, none⟩)).2 = 4 ∧
    ¬((restyExecute (fun _ => none)
        (fun _ => ⟨some ⟨500, "server error".data⟩, none⟩)).2 ≤ 3) := by
  constructor
  · rfl
  · decide

/-- C2 (amended): a response is retried only when its status code is 500
or 503 and no context error is pending; at most 3 retries follow the
initial attempt, so at most 4 attempts in total; every retry is justified
by a 500/503 on the preceding attempt; a non-retryable first outcome
surfaces immediately after a single attempt; each backoff wait lies
between 5 and 20 seconds; and when the final attempt still fails with a
4xx/5xx other than 404, the error handed to the caller carries that last
status code and body. -/
theorem spec_c2 :
    (∀ (resp : Response) (err : Option GoError),
      retryConditionGo (some resp) err = true ↔
        ((err ≠ some GoError.ctxCanceled ∧ err ≠ some GoError.ctxDeadlineExceeded) ∧
          (resp.statusCode = 500 ∨ resp.statusCode = 503))) ∧
    (∀ (ctxErrAt : Nat → Option GoError) (op : Nat → AttemptResult),
      (restyExecute ctxErrAt op).2 ≤ RetryAttempts + 1) ∧
    (∀ (ctxErrAt : Nat → Option GoError) (op : Nat → AttemptResult) (j : Nat),
      j + 1 < (restyExecute ctxErrAt op).2 →
      retryConditionGo (op j).resp (op j).err = true) ∧
    (∀ (ctxErrAt : Nat → Option GoError) (op : Nat → AttemptResult),
      (ctxErrAt 1).isSome = false →
      retryConditionGo (op 0).resp (op 0).err = false →
      restyExecute ctxErrAt op = (op 0, 1)) ∧
    (∀ (attempt jitter : Nat),
      jitter < min (RetryMaxWaitSeconds * secondNanos)
          (RetryWaitSeconds * secondNanos * 2 ^ attempt) / 2 →
      RetryWaitSeconds * secondNanos ≤ retrySleepNanos attempt jitter ∧
      retrySleepNanos attempt jitter ≤ RetryMaxWaitSeconds * secondNanos) ∧
    (∀ (ctxErrAt : Nat → Option GoError) (op : Nat → AttemptResult)
      (route tryTo : String) (resp : Response),
      (restyExecute ctxErrAt op).1.err = none →
      (restyExecute ctxErrAt op).1.resp = some resp →
      400 ≤ resp.statusCode → resp.statusCode ≠ 404 →
      GetRouteAndDecode ctxErrAt op route (GoValue.val GoKind.ptr) tryTo =
        .ok ⟨some (GoError.wrapDetails tryTo [⟨resp.statusCode, resp.body⟩] GoError.badRequest),
          (restyExecute ctxErrAt op).2⟩) := by
  refine ⟨retryCondition_iff_500_503, ?_, ?_, ?_, ?_, ?_⟩
  · intro ctxErrAt op
    have := backoffGo_attempts_le ctxErrAt retryConditionGo op RetryAttempts 0
    rw [restyExecute]
    omega
  · intro ctxErrAt op j hj
    exact backoffGo_retried_cond ctxErrAt retryConditionGo op RetryAttempts 0 j
      (Nat.zero_le j) hj
  · intro ctxErrAt op hc hr
    rw [restyExecute]
    exact backoffGo_no_retry ctxErrAt retryConditionGo op RetryAttempts 0 hc hr
  · intro attempt jitter hj
    rw [retrySleepNanos, jitterBackoffGo, RetryWaitSeconds, RetryMaxWaitSeconds,
      secondNanos] at *
    have hminle : min (20 * 1000000000) (5 * 1000000000 * 2 ^ attempt) ≤ 20 * 1000000000 :=
      Nat.min_le_left _ _
    split
    · omega
    · omega
  · intro ctxErrAt op route tryTo resp herr hresp h1 h2
    have hnorm := mayReturn_badRequest resp tryTo h1 h2
    simp only [GetRouteAndDecode, reflectTypeOfKind, ne_eq, not_true_eq_false, if_false,
      herr, hresp, hnorm]

/-- C2 witness: a non-retryable 400 stops after one attempt, the retry
condition accepts a 500, and the first backoff wait is within bounds. -/
theorem spec_c2_witness :
    restyExecute (fun _ => none) (fun _ => ⟨some ⟨400, "bad".data⟩, none⟩) =
      (⟨some ⟨400, "bad".data⟩, none⟩, 1) ∧
    retryConditionGo (some ⟨500, []⟩) none = true ∧
    (RetryWaitSeconds * secondNanos ≤ retrySleepNanos 1 0 ∧
      retrySleepNanos 1 0 ≤ RetryMaxWaitSeconds * secondNanos) :=
  ⟨spec_c2.2.2.2.1 _ _ rfl (by decide),
   (spec_c2.1 ⟨500, []⟩ none).mpr ⟨⟨by simp, by simp⟩, Or.inl rfl⟩,
   spec_c2.2.2.2.2.1 1 0 (by decide)⟩

/-! ### C5: cancellation -/

/-- C5: with the caller's context already cancelled before the call, the
transport performs a single attempt and the call surfaces the context's
own error; once a cancellation is observed after attempt k no further
retry runs; and the cancellation error is distinct from transport
failures. -/
theorem spec_c5 :
    (∀ (e : GoError) (op : Nat → AttemptResult) (route tryTo : String) (te : GoError),
      (op 0).err = some te →
      GetRouteAndDecode (fun _ => some e) op route (GoValue.val GoKind.ptr) tryTo =
        .ok ⟨some e, 1⟩) ∧
    (∀ (ctxErrAt : Nat → Option GoError) (op : Nat → AttemptResult) (k : Nat),
      (ctxErrAt (k + 1)).isSome = true →
      (restyExecute ctxErrAt op).2 ≤ k + 1) ∧
    (∀ msg, GoError.ctxCanceled ≠ GoError.transport msg) := by
  refine ⟨?_, ?_, fun msg h => GoError.noConfusion h⟩
  · intro e op route tryTo te hte
    have hexec := restyExecute_cancelled (fun _ => some e) op rfl
    simp only [GetRouteAndDecode, reflectTypeOfKind, ne_eq, not_true_eq_false, if_false,
      hexec, hte]
  · intro ctxErrAt op k hk
    rw [restyExecute]
    exact backoffGo_ctx_stop ctxErrAt retryConditionGo op RetryAttempts 0 k
      (Nat.zero_le k) hk

/-- C5 witness: a context cancelled before the call yields the context
error after exactly one attempt. -/
theorem spec_c5_witness :
    GetRouteAndDecode (fun _ => some GoError.ctxCanceled)
        (fun _ => ⟨some ⟨0, []⟩, some (.transport "request canceled")⟩) "/orders/1"
        (GoValue.val GoKind.ptr) "get order" =
      .ok ⟨some GoError.ctxCanceled, 1⟩ ∧
    (restyExecute (fun _ => some GoError.ctxCanceled)
        (fun _ => ⟨some ⟨0, []⟩, some (.transport "request canceled")⟩)).2 ≤ 1 :=
  ⟨spec_c5.1 GoError.ctxCanceled _ "/orders/1" "get order" _ rfl,
   spec_c5.2.1 _ _ 0 rfl⟩

/-! ### C3: get-by-natural-key lookups -/

/-- C3: each get-by-natural-key lookup fails with ErrNotFound when the
list search yields zero results; otherwise it takes the first match,
derives the wrapper's route from that match's remote identifier, issues a
follow-up GET against exactly that route, and on success the wrapper holds
the derived route and the hydrated detail. -/
theorem spec_c3 :
    (∀ (remote : CategoryRemote) (name : String),
      (remote.searchResult = .ok [] →
        GetCategoryByName remote name =
          (.err .notFound, [categoriesList ++ "?" ++ BuildSearchQuery "name" name "in"])) ∧
      (∀ (c : Category) (rest : List Category), remote.searchResult = .ok (c :: rest) →
        ∃ t, (GetCategoryByName remote name).2 =
          (categoriesList ++ "?" ++ BuildSearchQuery "name" name "in") ::
            (categories ++ "/" ++ toString c.id) :: t) ∧
      (∀ (c cd : Category) (rest : List Category) (ps : List ProductLink),
        remote.searchResult = .ok (c :: rest) →
        remote.detail (categories ++ "/" ++ toString c.id) = .ok cd →
        remote.productLinks
          (categories ++ "/" ++ toString c.id ++ "/" ++ categoriesProductsRelative) = .ok ps →
        GetCategoryByName remote name =
          (.ok ⟨categories ++ "/" ++ toString c.id, cd, ps⟩,
            [categoriesList ++ "?" ++ BuildSearchQuery "name" name "in",
              categories ++ "/" ++ toString c.id,
              categories ++ "/" ++ toString c.id ++ "/" ++ categoriesProductsRelative]))) ∧
    (∀ (remote : AttributeSetRemote) (name : String),
      (remote.searchResult = .ok [] →
        GetAttributeSetByName remote name =
          (.err .notFound,
            [productsAttributeSetList ++ "?" ++
              BuildSearchQuery "attribute_set_name" name "in"])) ∧
      (∀ (a : AttributeSet) (rest : List AttributeSet),
        remote.searchResult = .ok (a :: rest) →
        ∃ t, (GetAttributeSetByName remote name).2 =
          (productsAttributeSetList ++ "?" ++ BuildSearchQuery "attribute_set_name" name "in") ::
            (productsAttributeSet ++ "/" ++ toString a.attributeSetID) :: t) ∧
      (∀ (a ad : AttributeSet) (rest : List AttributeSet) (gs : List Group)
        (attrs : List Attribute),
        remote.searchResult = .ok (a :: rest) →
        remote.details (productsAttributeSet ++ "/" ++ toString a.attributeSetID) = .ok ad →
        remote.groups (productsAttributeSetGroupsList ++ "?" ++
          BuildSearchQuery "attribute_set_id" (toString ad.attributeSetID) "in") = .ok gs →
        remote.attributes (productsAttributeSet ++ "/" ++ toString a.attributeSetID ++ "/" ++
          productsAttributeSetAttributesRelative) = .ok attrs →
        GetAttributeSetByName remote name =
          (.ok ⟨productsAttributeSet ++ "/" ++ toString a.attributeSetID, ad, gs, attrs⟩,
            [productsAttributeSetList ++ "?" ++ BuildSearchQuery "attribute_set_name" name "in",
              productsAttributeSet ++ "/" ++ toString a.attributeSetID,
              productsAttributeSetGroupsList ++ "?" ++
                BuildSearchQuery "attribute_set_id" (toString ad.attributeSetID) "in",
              productsAttributeSet ++ "/" ++ toString a.attributeSetID ++ "/" ++
                productsAttributeSetAttributesRelative]))) ∧
    (∀ (remote : OrderRemote) (id : String),
      (remote.searchItems = .ok [] →
        GetOrderByIncrementID remote id =
          (.err .notFound,
            [Orders ++ "?" ++ BuildFlexibleSearchQuery
              [⟨[⟨⟨2, 0, "increment_id"⟩, ⟨2, 0, id⟩, ⟨2, 0, "eq"⟩⟩]⟩]
              [⟨"fields", "items[entity_id]"⟩]])) ∧
      (∀ (eid : Int) (rest : List Int), remote.searchItems = .ok (eid :: rest) →
        ∃ t, (GetOrderByIncrementID remote id).2 =
          (Orders ++ "?" ++ BuildFlexibleSearchQuery
            [⟨[⟨⟨2, 0, "increment_id"⟩, ⟨2, 0, id⟩, ⟨2, 0, "eq"⟩⟩]⟩]
            [⟨"fields", "items[entity_id]"⟩]) :: (Orders ++ "/" ++ toString eid) :: t) ∧
      (∀ (eid : Int) (rest : List Int) (o : Order),
        remote.searchItems = .ok (eid :: rest) →
        remote.detail (Orders ++ "/" ++ toString eid) = .ok o →
        GetOrderByIncrementID remote id =
          (.ok ⟨Orders ++ "/" ++ toString eid, o⟩,
            [Orders ++ "?" ++ BuildFlexibleSearchQuery
              [⟨[⟨⟨2, 0, "increment_id"⟩, ⟨2, 0, id⟩, ⟨2, 0, "eq"⟩⟩]⟩]
              [⟨"fields", "items[entity_id]"⟩],
              Orders ++ "/" ++ toString eid]))) := by
  refine ⟨?_, ?_, ?_⟩
  · intro remote name
    refine ⟨?_, ?_, ?_⟩
    · intro h
      simp [GetCategoryByName, h]
    · intro c rest h
      cases hd : remote.detail (categories ++ "/" ++ toString c.id) with
      | err e =>
        refine ⟨[], ?_⟩
        simp [GetCategoryByName, h, UpdateCategoryFromRemote, hd]
      | ok cd =>
        cases hp : remote.productLinks
            (categories ++ "/" ++ toString c.id ++ "/" ++ categoriesProductsRelative) with
        | err e =>
          refine ⟨[categories ++ "/" ++ toString c.id ++ "/" ++ categoriesProductsRelative], ?_⟩
          simp [GetCategoryByName, h, UpdateCategoryFromRemote, hd,
            UpdateCategoryProductsFromRemote, hp]
        | ok ps =>
          refine ⟨[categories ++ "/" ++ toString c.id ++ "/" ++ categoriesProductsRelative], ?_⟩
          simp [GetCategoryByName, h, UpdateCategoryFromRemote, hd,
            UpdateCategoryProductsFromRemote, hp]
    · intro c cd rest ps h hd hp
      simp [GetCategoryByName, h, UpdateCategoryFromRemote, hd,
        UpdateCategoryProductsFromRemote, hp]
  · intro remote name
    refine ⟨?_, ?_, ?_⟩
    · intro h
      simp [GetAttributeSetByName, h]
    · intro a rest h
      cases hd : remote.details (productsAttributeSet ++ "/" ++ toString a.attributeSetID) with
      | err e =>
        refine ⟨[], ?_⟩
        simp [GetAttributeSetByName, h, UpdateAttributeSetFromRemote,
          updateAttributeSetDetails, hd]
      | ok ad =>
        cases hg : remote.groups (productsAttributeSetGroupsList ++ "?" ++
            BuildSearchQuery "attribute_set_id" (toString ad.attributeSetID) "in") with
        | err e =>
          refine ⟨[productsAttributeSetGroupsList ++ "?" ++
            BuildSearchQuery "attribute_set_id" (toString ad.attributeSetID) "in"], ?_⟩
          simp [GetAttributeSetByName, h, UpdateAttributeSetFromRemote,
            updateAttributeSetDetails, hd, updateGroups, hg]
        | ok gs =>
          cases ha : remote.attributes (productsAttributeSet ++ "/" ++
              toString a.attributeSetID ++ "/" ++ productsAttributeSetAttributesRelative) with
          | err e =>
            refine ⟨[productsAttributeSetGroupsList ++ "?" ++
              BuildSearchQuery "attribute_set_id" (toString ad.attributeSetID) "in",
              productsAttributeSet ++ "/" ++ toString a.attributeSetID ++ "/" ++
                productsAttributeSetAttributesRelative], ?_⟩
            simp [GetAttributeSetByName, h, UpdateAttributeSetFromRemote,
              updateAttributeSetDetails, hd, updateGroups, hg, updateAttributes, ha]
          | ok attrs =>
            refine ⟨[productsAttributeSetGroupsList ++ "?" ++
              BuildSearchQuery "attribute_set_id" (toString ad.attributeSetID) "in",
              productsAttributeSet ++ "/" ++ toString a.attributeSetID ++ "/" ++
                productsAttributeSetAttributesRelative], ?_⟩
            simp [GetAttributeSetByName, h, UpdateAttributeSetFromRemote,
              updateAttributeSetDetails, hd, updateGroups, hg, updateAttributes, ha]
    · intro a ad rest gs attrs h hd hg ha
      simp [GetAttributeSetByName, h, UpdateAttributeSetFromRemote,
        updateAttributeSetDetails, hd, updateGroups, hg, updateAttributes, ha]
  · intro remote id
    refine ⟨?_, ?_, ?_⟩
    · intro h
      simp [GetOrderByIncrementID, h]
    · intro eid rest h
      cases hd : remote.detail (Orders ++ "/" ++ toString eid) with
      | err e =>
        refine ⟨[], ?_⟩
        simp [GetOrderByIncrementID, h, hd]
      | ok o =>
        refine ⟨[], ?_⟩
        simp [GetOrderByIncrementID, h, hd]
    · intro eid rest o h hd
      simp [GetOrderByIncrementID, h, hd]

/-- C3 witness: a hydrating category lookup, an empty attribute-set search
and a hydrating order lookup. -/
theorem spec_c3_witness :
    GetCategoryByName
        ⟨.ok [⟨7, "Default Category"⟩], fun _ => .ok ⟨7, "Default Category"⟩,
          fun _ => .ok []⟩ "Default Category" =
      (.ok ⟨categories ++ "/" ++ toString (7 : Int), ⟨7, "Default Category"⟩, []⟩,
        [categoriesList ++ "?" ++ BuildSearchQuery "name" "Default Category" "in",
          categories ++ "/" ++ toString (7 : Int),
          categories ++ "/" ++ toString (7 : Int) ++ "/" ++ categoriesProductsRelative]) ∧
    GetAttributeSetByName
        ⟨.ok [], fun _ => .err .notFound, fun _ => .err .notFound, fun _ => .err .notFound⟩
        "Missing" =
      (.err .notFound,
        [productsAttributeSetList ++ "?" ++
          BuildSearchQuery "attribute_set_name" "Missing" "in"]) ∧
    GetOrderByIncrementID ⟨.ok [42], fun _ => .ok ⟨42⟩⟩ "100000123" =
      (.ok ⟨Orders ++ "/" ++ toString (42 : Int), ⟨42⟩⟩,
        [Orders ++ "?" ++ BuildFlexibleSearchQuery
          [⟨[⟨⟨2, 0, "increment_id"⟩, ⟨2, 0, "100000123"⟩, ⟨2, 0, "eq"⟩⟩]⟩]
          [⟨"fields", "items[entity_id]"⟩],
          Orders ++ "/" ++ toString (42 : Int)]) :=
  ⟨(spec_c3.1 _ "Default Category").2.2 ⟨7, "Default Category"⟩ ⟨7, "Default Category"⟩ [] []
      rfl rfl rfl,
   (spec_c3.2.1 _ "Missing").1 rfl,
   (spec_c3.2.2 _ "100000123").2.2 42 [] ⟨42⟩ rfl rfl⟩

/-! ### Helper lemmas about the cart item loop -/

theorem addItemsLoop_all_ok (oracle : Nat → Response × Option GoError) (quoteID : String) :
    ∀ (items acc : List CartItem) (i : Nat),
      (∀ j, j < items.length →
        (oracle (i + j)).1.statusCode < 400 ∧ (oracle (i + j)).2 = none) →
      (addItemsLoop oracle quoteID items acc i).1 = none := by
  intro items
  induction items with
  | nil => intro acc i _; rfl
  | cons item rest ih =>
    intro acc i h
    have h0 := h 0 (by simp)
    rw [Nat.add_zero] at h0
    rw [addItemsLoop, mayReturn_of_lt400 _ _ h0.1, h0.2]
    refine ih (acc ++ [{ item with quoteID := quoteID }]) (i + 1) ?_
    intro j hj
    have hj1 : j + 1 < (item :: rest).length := by simp; omega
    have := h (j + 1) hj1
    have heq : i + (j + 1) = i + 1 + j := by omega
    rw [heq] at this
    exact this

theorem addItemsLoop_first_fail (oracle : Nat → Response × Option GoError) (quoteID : String) :
    ∀ (items acc : List CartItem) (i k : Nat) (hk : k < items.length) (he : GoError),
      (∀ j, j < k →
        (oracle (i + j)).1.statusCode < 400 ∧ (oracle (i + j)).2 = none) →
      mayReturnErrorForHTTPResponse (oracle (i + k)).1
        (addItemTriedTo { items.get ⟨k, hk⟩ with quoteID := quoteID }) = some he →
      (addItemsLoop oracle quoteID items acc i).1 =
        (if errorsIs he .notFound then
          some (.itemNotFound (items.get ⟨k, hk⟩).itemID)
        else some he) := by
  intro items
  induction items with
  | nil => intro acc i k hk; exact absurd hk (by simp)
  | cons item rest ih =>
    intro acc i k hk he hpre hfail
    cases k with
    | zero =>
      rw [Nat.add_zero] at hfail
      rw [addItemsLoop]
      have hget : (item :: rest).get ⟨0, hk⟩ = item := rfl
      rw [hget] at hfail ⊢
      rw [hfail]
      cases herr : errorsIs he GoError.notFound <;> simp [herr]
    | succ k =>
      have h0 := hpre 0 (by omega)
      rw [Nat.add_zero] at h0
      rw [addItemsLoop, mayReturn_of_lt400 _ _ h0.1, h0.2]
      have hk2 : k < rest.length := by simpa using hk
      have hget : (item :: rest).get ⟨k + 1, hk⟩ = rest.get ⟨k, hk2⟩ := rfl
      rw [hget] at hfail ⊢
      have heq : i + (k + 1) = i + 1 + k := by omega
      rw [heq] at hfail
      refine ih (acc ++ [{ item with quoteID := quoteID }]) (i + 1) k hk2 he ?_ hfail
      intro j hj
      have := hpre (j + 1) (by omega)
      have heq2 : i + (j + 1) = i + 1 + j := by omega
      rw [heq2] at this
      exact this

/-! ### C6: adding cart items -/

/-- C6: AddItems succeeds with no error when every item's POST succeeds;
when the first failing item's POST normalizes to NotFound it returns
ItemNotFoundError carrying that item's identifier; any other normalized
failure is returned unchanged; and ItemNotFoundError is distinguished from
the generic NotFound sentinel under errors.Is. -/
theorem spec_c6 :
    (∀ (oracle : Nat → Response × Option GoError) (quoteID : String)
      (cartItems items : List CartItem),
      (∀ j, j < items.length → (oracle j).1.statusCode < 400 ∧ (oracle j).2 = none) →
      (AddItems oracle quoteID cartItems items).1 = none) ∧
    (∀ (oracle : Nat → Response × Option GoError) (quoteID : String)
      (cartItems items : List CartItem) (k : Nat) (hk : k < items.length),
      (∀ j, j < k → (oracle j).1.statusCode < 400 ∧ (oracle j).2 = none) →
      (oracle k).1.statusCode = 404 →
      (AddItems oracle quoteID cartItems items).1 =
        some (.itemNotFound (items.get ⟨k, hk⟩).itemID)) ∧
    (∀ (oracle : Nat → Response × Option GoError) (quoteID : String)
      (cartItems items : List CartItem) (k : Nat) (hk : k < items.length),
      (∀ j, j < k → (oracle j).1.statusCode < 400 ∧ (oracle j).2 = none) →
      400 ≤ (oracle k).1.statusCode → (oracle k).1.statusCode ≠ 404 →
      (AddItems oracle quoteID cartItems items).1 =
        some (GoError.wrapDetails
          (addItemTriedTo { items.get ⟨k, hk⟩ with quoteID := quoteID })
          [⟨(oracle k).1.statusCode, (oracle k).1.body⟩] GoError.badRequest)) ∧
    (∀ x : Int, errorsIs (GoError.itemNotFound x) GoError.notFound = false) := by
  refine ⟨?_, ?_, ?_, fun x => rfl⟩
  · intro oracle quoteID cartItems items h
    exact addItemsLoop_all_ok oracle quoteID items cartItems 0 (by simpa using h)
  · intro oracle quoteID cartItems items k hk hpre h404
    have hfail := mayReturn_of_404 (oracle (0 + k)).1
      (addItemTriedTo { items.get ⟨k, hk⟩ with quoteID := quoteID })
      (by simpa using h404)
    have := addItemsLoop_first_fail oracle quoteID items cartItems 0 k hk
      GoError.notFound (by simpa using hpre) hfail
    simpa [AddItems] using this
  · intro oracle quoteID cartItems items k hk hpre h400 h404
    have hfail := mayReturn_badRequest (oracle (0 + k)).1
      (addItemTriedTo { items.get ⟨k, hk⟩ with quoteID := quoteID })
      (by simpa using h400) (by simpa using h404)
    have := addItemsLoop_first_fail oracle quoteID items cartItems 0 k hk
      (GoError.wrapDetails (addItemTriedTo { items.get ⟨k, hk⟩ with quoteID := quoteID })
        [⟨(oracle (0 + k)).1.statusCode, (oracle (0 + k)).1.body⟩] GoError.badRequest)
      (by simpa using hpre) hfail
    simpa [AddItems] using this

/-- C6 witness: an all-success run, a 404 run raising ItemNotFoundError,
and the errors.Is distinction. -/
theorem spec_c6_witness :
    (AddItems (fun _ => (⟨200, []⟩, none)) "q1" [] [⟨"X", 2, "", 0⟩]).1 = none ∧
    (AddItems (fun _ => (⟨404, []⟩, none)) "q1" [] [⟨"X", 2, "", 11⟩]).1 =
      some (.itemNotFound 11) ∧
    errorsIs (GoError.itemNotFound 11) GoError.notFound = false :=
  ⟨spec_c6.1 _ "q1" [] [⟨"X", 2, "", 0⟩] (fun _ _ => And.intro (by decide) rfl),
   spec_c6.2.1 _ "q1" [] [⟨"X", 2, "", 11⟩] 0 (by decide)
     (fun j hj => absurd hj (by omega)) rfl,
   spec_c6.2.2.2 11⟩

/-! ### C7: adding attribute options -/

/-- C7: on a successful POST, AddOption returns the raw body with the
surrounding quotes removed and a leading id marker stripped, and before
returning it re-fetches the attribute from the wrapper's route so that the
wrapper's Options collection is the remote's current one (including the
newly added option whenever the remote reports it). -/
theorem spec_c7 (remote : AttributeRemote) (mas : MAttribute) (option : OptionRec)
    (a : Attribute)
    (hpost_err : (remote.post (mas.route ++ "/" ++ productsAttributeOptions)).2 = none)
    (hpost_ok : (remote.post (mas.route ++ "/" ++ productsAttributeOptions)).1.statusCode < 400)
    (hdetail : remote.detail mas.route = .ok a) :
    (AddOption remote mas option).err = none ∧
    (AddOption remote mas option).value =
      trimPrefixGo (mayTrimSurroundingQuotes
        (remote.post (mas.route ++ "/" ++ productsAttributeOptions)).1.body) "id_".data ∧
    (AddOption remote mas option).state.attributeData = a ∧
    (AddOption remote mas option).trace =
      [mas.route ++ "/" ++ productsAttributeOptions, mas.route] ∧
    (∀ o, o ∈ a.options → o ∈ (AddOption remote mas option).state.attributeData.options) := by
  have hnorm := mayReturn_of_lt400 (remote.post (mas.route ++ "/" ++ productsAttributeOptions)).1
    "assign option to attribute" hpost_ok
  simp [AddOption, hpost_err, hnorm, hdetail]

/-- C7 witness: a POST answering the raw body id_42 in quotes yields the
identifier 42 and the re-fetched options list. -/
theorem spec_c7_witness :
    (AddOption
        ⟨fun _ => (⟨200, ('"' :: 'i' :: 'd' :: '_' :: '4' :: '2' :: '"' :: [])⟩, none),
          fun _ => .ok ⟨5, "color", [⟨"red", "42"⟩]⟩⟩
        ⟨productsAttribute ++ "/color", ⟨5, "color", []⟩⟩ ⟨"red", "42"⟩).err = none ∧
    (AddOption
        ⟨fun _ => (⟨200, ('"' :: 'i' :: 'd' :: '_' :: '4' :: '2' :: '"' :: [])⟩, none),
          fun _ => .ok ⟨5, "color", [⟨"red", "42"⟩]⟩⟩
        ⟨productsAttribute ++ "/color", ⟨5, "color", []⟩⟩ ⟨"red", "42"⟩).value =
      ('4' :: '2' :: []) := by
  have h := spec_c7
    (⟨fun _ => (⟨200, ('"' :: 'i' :: 'd' :: '_' :: '4' :: '2' :: '"' :: [])⟩, none),
      fun _ => .ok ⟨5, "color", [⟨"red", "42"⟩]⟩⟩ : AttributeRemote)
    ⟨productsAttribute ++ "/color", ⟨5, "color", []⟩⟩ ⟨"red", "42"⟩
    ⟨5, "color", [⟨"red", "42"⟩]⟩ rfl (by decide) rfl
  exact ⟨h.1, by rw [h.2.1]; decide⟩

/-! ### C8: search query construction -/

set_option maxRecDepth 40000 in
/-- C8: for the filter increment_id / 100000123 / eq at group index 0 and
filter index 0, the built query contains the three expected
searchCriteria pairs, and in general the serialized pairs carry exactly
the group and filter indices supplied by the caller. -/
theorem spec_c8 :
    (∃ pre post,
      BuildFlexibleSearchQuery
        [⟨[⟨⟨0, 0, "increment_id"⟩, ⟨0, 0, "100000123"⟩, ⟨0, 0, "eq"⟩⟩]⟩] [] =
      pre ++ "searchCriteria[filter_groups][0][filters][0][field]=increment_id" ++ post) ∧
    (∃ pre post,
      BuildFlexibleSearchQuery
        [⟨[⟨⟨0, 0, "increment_id"⟩, ⟨0, 0, "100000123"⟩, ⟨0, 0, "eq"⟩⟩]⟩] [] =
      pre ++ "searchCriteria[filter_groups][0][filters][0][value]=100000123" ++ post) ∧
    (∃ pre post,
      BuildFlexibleSearchQuery
        [⟨[⟨⟨0, 0, "increment_id"⟩, ⟨0, 0, "100000123"⟩, ⟨0, 0, "eq"⟩⟩]⟩] [] =
      pre ++ "searchCriteria[filter_groups][0][filters][0][condition_type]=eq" ++ post) ∧
    (∀ (g f : Nat) (fieldName v ct : String),
      filterFieldsPairs ⟨⟨g, f, fieldName⟩, ⟨g, f, v⟩, ⟨g, f, ct⟩⟩ =
        [searchCriteriaPair g f "field" fieldName,
          searchCriteriaPair g f "value" v,
          searchCriteriaPair g f "condition_type" ct]) := by
  refine ⟨⟨"", "&searchCriteria[filter_groups][0][filters][0][value]=100000123&searchCriteria[filter_groups][0][filters][0][condition_type]=eq", ?_⟩,
    ⟨"searchCriteria[filter_groups][0][filters][0][field]=increment_id&",
      "&searchCriteria[filter_groups][0][filters][0][condition_type]=eq", ?_⟩,
    ⟨"searchCriteria[filter_groups][0][filters][0][field]=increment_id&searchCriteria[filter_groups][0][filters][0][value]=100000123&",
      "", ?_⟩,
    fun g f fieldName v ct => rfl⟩
  · decide
  · decide
  · decide

end M2Rest
